import Mathlib

/-!
# Verification of pynrn's scoped-lifecycle layer

A shallow embedding of the lifecycle-management core of `pynrn` (the
`Context` manager, the managed-handle destruction protocol, the section /
segment topology cache, the `NetCon` connection protocol and the mechanism
attribute-name mangling), translated from `src/pynrn/*.py`, together with
theorems settling the frozen claims about that code.

Python floats are modelled as `Rat`; the NEURON kernel is modelled
explicitly as the data the code reads from it (entity counts, weight
counts, global clock variables).
-/

namespace Pynrn

/-- The error kinds the source raises.  The Python code raises plain
`RuntimeError` / `TypeError` / `ValueError` / `AttributeError` /
`AssertionError`; each constructor names one concrete raise-site family. -/
inductive Err where
  /-- From `Context.__init__`: "There is already an active simulation context." -/
  | concurrentContext
  /-- From `Context._check_clean`: "Cannot create new context--old objects have
  not been cleared". -/
  | dirtyKernel
  /-- From `Context._check_active`: "This context is no longer active". -/
  | notActive
  /-- a `TypeError` from `_check_args` or an explicit raise. -/
  | typeError
  /-- a `ValueError` from `_check_bounds`. -/
  | valueError
  /-- From `NeuronObject.check_destroyed`: "Underlying NEURON object has already
  been destroyed." -/
  | useAfterDestroy
  /-- a failing `assert` statement. -/
  | assertionFailed
  /-- a missing plain attribute (`AttributeError`). -/
  | attributeError
  deriving DecidableEq, Repr

/-! ## Kernel model

The data `Context._check_clean` reads from the NEURON kernel: the number of
live sections (`h.allsec()`), per type name the live instance count
(`h.List(name)`), plus the cached mechanism-type catalog
(`Mechanism.all_mechanism_types()`). -/

/-- One entry of `Mechanism.all_mechanism_types()`: the capability flags of
a mechanism type. -/
structure MechType where
  name : String
  point_process : Bool
  artificial_cell : Bool
  netcon_target : Bool
  has_netevent : Bool
  deriving DecidableEq, Repr

/-- The kernel state that `Context._check_clean` inspects. -/
structure Kernel where
  /-- Models `len(list(h.allsec()))`. -/
  nSections : Nat
  /-- live instance counts by type name, `len(h.List(name))`. -/
  instCounts : List (String × Nat)
  /-- the mechanism type catalog. -/
  mechTypes : List MechType
  deriving DecidableEq, Repr

/-- Models `len(h.List(name))`. -/
def Kernel.listCount (k : Kernel) (name : String) : Nat :=
  (k.instCounts.lookup name).getD 0

/-- The `remaining` list built by `Context._check_clean` (context.py
307-340): leftover sections, leftover `NetCon`s, and leftover instances of
every point-process or artificial-cell type. -/
def checkCleanRemaining (k : Kernel) : List (Nat × String) :=
  (if k.nSections > 0 then [(k.nSections, "Section")] else []) ++
  (if k.listCount "NetCon" > 0 then [(k.listCount "NetCon", "NetCon")] else []) ++
  ((k.mechTypes.filter (fun t => t.artificial_cell || t.point_process)).filterMap
    (fun t => if k.listCount t.name > 0 then some (k.listCount t.name, t.name) else none))

/-- Model of `Context._check_clean`: raises when anything is left in the kernel. -/
def checkClean (k : Kernel) : Option Err :=
  if checkCleanRemaining k = [] then none else some Err.dirtyKernel

/-! ## Context state -/

/-- A member handle as the context registry sees it (`Context._objects`):
its identity, whether it is a `Vector` (those are exempt from teardown by
default), and its destroyed flag. -/
structure Obj where
  oid : Nat
  isVector : Bool
  destroyed : Bool
  deriving DecidableEq, Repr

/-- The per-instance state of a `Context` (context.py `__init__`).
`tstopAttr` models the plain `tstop` attribute that `init` assigns and
`run` reads: the class defines no `tstop` property, so the attribute is
absent (`none`) until `init(tstop=...)` first assigns it, while the
`_tstop` slot set in `__init__` is never read back. -/
structure CtxState where
  keepVectors : Bool
  /-- Field `self._dt`, default 0.025. -/
  dt : Rat
  /-- Field `self._celsius`, default 25.0. -/
  celsius : Rat
  /-- Field `self._tstop`, default 10.0 (written once, never read). -/
  tstopSlot : Rat
  /-- the plain `tstop` attribute read by `run` (absent until assigned). -/
  tstopAttr : Option Rat
  /-- Field `self._t`, default 0.0. -/
  t : Rat
  /-- Field `self._finitialized`. -/
  finitialized : Bool
  /-- Field `self._destroyed`. -/
  destroyed : Bool
  /-- Field `self._objects`, the registered member handles. -/
  members : List Obj
  deriving DecidableEq, Repr

/-- The field initialisation performed by `Context.__init__`. -/
def freshCtx (keepVectors : Bool) : CtxState :=
  { keepVectors := keepVectors
    dt := 1/40          -- 0.025
    celsius := 25
    tstopSlot := 10
    tstopAttr := none
    t := 0
    finitialized := false
    destroyed := false
    members := [] }

/-- Process-wide state: the `Context._active` pointer (by context id), the
contexts that exist, and the kernel. -/
structure Proc where
  active : Option Nat
  ctxs : List (Nat × CtxState)
  kernel : Kernel
  deriving DecidableEq, Repr

/-- Model of `Context.__init__` (context.py 66-81).  The order is the
source's: first the concurrent-context check (raising before anything is
mutated), then the field initialisation, then `Context._active = self`, and
only then `self._check_clean()` — so a pre-flight failure happens *after*
the new context has been activated.  `newCid` is the identity of the
context being constructed. -/
def contextNew (p : Proc) (keepVectors : Bool) (newCid : Nat) : Proc × Option Err :=
  if p.active.isSome then
    (p, some Err.concurrentContext)
  else
    let p1 : Proc :=
      { p with active := some newCid
               ctxs := (newCid, freshCtx keepVectors) :: p.ctxs }
    (p1, checkClean p.kernel)

/-- Model of `NeuronObject._destroy` as seen from `Context._destroy`:
an already-destroyed member is left alone, otherwise its destroyed flag is
set (and it is dropped from the registry, handled in `contextTeardown`). -/
def objDestroy (o : Obj) : Obj :=
  if o.destroyed then o else { o with destroyed := true }

/-- Whether `Context._destroy` skips this member: a `keep_vectors` context
leaves `Vector` members alive and registered. -/
def keptByTeardown (c : CtxState) (o : Obj) : Bool :=
  c.keepVectors && o.isVector

/-- Model of `Context._destroy` (context.py 247-261): destroy every
registered member except kept vectors, mark the context destroyed.  Returns
the new context state and the list of members it tore down. -/
def contextTeardown (c : CtxState) : CtxState × List Obj :=
  let torn := (c.members.filter (fun o => !keptByTeardown c o)).map objDestroy
  ({ c with members := c.members.filter (fun o => keptByTeardown c o)
            destroyed := true }, torn)

/-- Model of `Context.finish` (context.py 225-238): `self._destroy()`, then
clear `Context._active` only if `self` is still the active context.
`active` is the process-wide pointer, `cid` the finishing context's id. -/
def contextFinish (active : Option Nat) (cid : Nat) (c : CtxState) :
    Option Nat × CtxState × List Obj :=
  let d := contextTeardown c
  ((if active = some cid then none else active), d.1, d.2)

/-! ## Context parameter setters, init and run (context.py 102-223) -/

/-- Model of the `Context.dt` setter (context.py 111-117): `_check_active`,
the `_check_bounds(dt="> 0")` check, then assignment.  There is no
initialized-state check anywhere in the setter. -/
def ctxSetDt (isActive : Bool) (c : CtxState) (v : Rat) : CtxState × Option Err :=
  if !isActive then (c, some Err.notActive)
  else if v ≤ 0 then (c, some Err.valueError)
  else ({ c with dt := v }, none)

/-- Model of the `Context.celsius` setter (context.py 138-143):
`_check_active` then assignment; no initialized-state check. -/
def ctxSetCelsius (isActive : Bool) (c : CtxState) (v : Rat) : CtxState × Option Err :=
  if !isActive then (c, some Err.notActive)
  else ({ c with celsius := v }, none)

/-- Model of the `Context.t` setter (context.py 125-130). -/
def ctxSetT (isActive : Bool) (c : CtxState) (v : Rat) : CtxState × Option Err :=
  if !isActive then (c, some Err.notActive)
  else ({ c with t := v }, none)

/-- Assignment to the plain `tstop` attribute (`self.tstop = tstop` inside
`init`): no `tstop` property exists, so this is a plain attribute write and
always succeeds. -/
def ctxSetTstop (c : CtxState) (v : Rat) : CtxState :=
  { c with tstopAttr := some v }

/-- The NEURON global variables `init`, `advance` and `run` synchronize
with (`h.dt`, `h.celsius`, `h.t`). -/
structure KernelGlobals where
  dt : Rat
  celsius : Rat
  t : Rat
  deriving DecidableEq, Repr

/-- The keyword arguments `run` forwards to `init`. -/
structure Overrides where
  dt : Option Rat
  celsius : Option Rat
  tstop : Option Rat
  t : Option Rat
  finit : Option Bool
  deriving DecidableEq, Repr

/-- An empty set of overrides. -/
def noOverrides : Overrides :=
  { dt := none, celsius := none, tstop := none, t := none, finit := none }

/-- The four optional parameter assignments of `Context.init` (context.py
172-179), in source order, on an active context (where none of the
individual setters can fail once `dt > 0` has been checked). -/
def ctxInitApply (c : CtxState) (o : Overrides) : CtxState :=
  let c1 := match o.dt with | some v => { c with dt := v } | none => c
  let c2 := match o.celsius with | some v => { c1 with celsius := v } | none => c1
  let c3 := match o.tstop with | some v => ctxSetTstop c2 v | none => c2
  match o.t with | some v => { c3 with t := v } | none => c3

/-- Model of `Context.init` (context.py 145-188): `_check_active`; reject
an explicit `t` together with `finit`; apply each given override through
its setter (a non-positive `dt` fails the bounds check before anything is
assigned); push `dt`, `celsius`, `t` into the kernel globals; when `finit`,
call `h.finitialize()` — modelled as the kernel resetting its clock to 0 —
mark the context initialized, and read the clock back into `self.t`. -/
def ctxInit (isActive : Bool) (c : CtxState) (kg : KernelGlobals) (o : Overrides) :
    (CtxState × KernelGlobals) × Option Err :=
  if !isActive then ((c, kg), some Err.notActive)
  else if (o.finit.getD true) && o.t.isSome then ((c, kg), some Err.typeError)
  else if (match o.dt with | some v => decide (v ≤ 0) | none => false) then
    ((c, kg), some Err.valueError)
  else
    let c4 := ctxInitApply c o
    let kg1 : KernelGlobals := { dt := c4.dt, celsius := c4.celsius, t := c4.t }
    if o.finit.getD true then
      (({ c4 with finitialized := true, t := 0 }, { kg1 with t := 0 }), none)
    else ((c4, kg1), none)

/-- The `fadvance` loop of `Context.run`: the kernel integrates until its
clock reaches or passes `tstop` (modelled as landing on `tstop` exactly). -/
def runAdvanceLoop (kg : KernelGlobals) (ts : Rat) : KernelGlobals :=
  if kg.t < ts then { kg with t := ts } else kg

/-- Model of `Context.run` (context.py 208-223): `_check_active`; default
`finit` to `not self._finitialized`; pass **all** overrides on to `init`
(no override is ever rejected); read the plain `tstop` attribute (an
`AttributeError` when it was never assigned); advance until the kernel
clock passes `tstop`; finally read the clock back into `self.t`. -/
def ctxRun (isActive : Bool) (c : CtxState) (kg : KernelGlobals) (o : Overrides) :
    (CtxState × KernelGlobals) × Option Err :=
  if !isActive then ((c, kg), some Err.notActive)
  else
    let o1 := { o with finit := some (o.finit.getD (!c.finitialized)) }
    match ctxInit true c kg o1 with
    | (r, some e) => (r, some e)
    | ((c1, kg1), none) =>
      match c1.tstopAttr with
      | none => ((c1, kg1), some Err.attributeError)
      | some ts =>
        let kg2 := runAdvanceLoop kg1 ts
        (({ c1 with t := kg2.t }, kg2), none)

/-! ## Managed-handle destruction (neuron_object.py, mechanism.py) -/

/-- The lifecycle state of a plain managed handle: the destroyed flag and
its registration in the owning context's weak set. -/
structure NObj where
  destroyed : Bool
  registered : Bool
  deriving DecidableEq, Repr

/-- Model of `NeuronObject._destroy` (neuron_object.py 112-122): when
already destroyed, return without effect (and without raising); otherwise
unregister from the context and set the destroyed flag. -/
def nobjDestroy (o : NObj) : NObj :=
  if o.destroyed then o else { destroyed := true, registered := false }

/-- The state a point-process destroy touches: the wrapper's lifecycle
flags plus the kernel's live instance count for its mechanism type,
`len(h.List(type_name))`. -/
structure PPWorld where
  destroyed : Bool
  registered : Bool
  liveCount : Nat
  deriving DecidableEq, Repr

/-- Model of `PointProcess._destroy` (mechanism.py 420-425): when already
destroyed, return at once; otherwise record `n = len(h.List(...))`, run
`Mechanism._destroy` (which unregisters, sets the flag and releases the
kernel handle — `Modelled from the spec:` the handle release of
`NeuronObject._destroy` step 2 is not in this revision of
neuron_object.py; releasing the wrapper's only reference frees the kernel
instance, so the kernel's live count drops by one), then assert the count
is now `n - 1`. -/
def ppDestroy (s : PPWorld) : PPWorld × Option Err :=
  if s.destroyed then (s, none)
  else
    let n := s.liveCount
    let s1 : PPWorld :=
      { destroyed := true, registered := false, liveCount := s.liveCount - 1 }
    if s1.liveCount = n - 1 then (s1, none) else (s1, some Err.assertionFailed)

/-- The state reached by one `_destroy` call on a point process. -/
def ppDestroyStep (s : PPWorld) : PPWorld := (ppDestroy s).1

/-! ## Section segmentation and the locator cache (section.py, segment.py) -/

/-- A materialized locator wrapper (`Segment`): its cache position and its
destroyed flag. -/
structure SegWrap where
  xpos : Rat
  destroyed : Bool
  deriving DecidableEq, Repr

/-- A compartment wrapper (`Section`): destroyed flag, the kernel-side
segmentation count `nrnobj.nseg`, and the locator cache `self._segments`
keyed by position. -/
structure SectionState where
  destroyed : Bool
  kernelNseg : Nat
  segCache : List (Rat × SegWrap)
  deriving DecidableEq, Repr

/-- Model of the `Section.nseg` setter (section.py 91-95):
`check_destroyed`, then write the kernel's `nseg`.  The call to
`_forget_segments()` is commented out in the source ("don't think this is
necessary"), so the locator cache is left untouched and no cached locator
is destroyed. -/
def sectionSetNseg (s : SectionState) (n : Nat) : SectionState × Option Err :=
  if s.destroyed then (s, some Err.useAfterDestroy)
  else ({ s with kernelNseg := n }, none)

/-- Destroying one locator wrapper (`Segment._destroy`, early-return when
already destroyed). -/
def segWrapDestroy (g : SegWrap) : SegWrap :=
  if g.destroyed then g else { g with destroyed := true }

/-- Model of `Section._forget_segments` (section.py 330-335): destroy every
cached locator wrapper, then clear the cache.  Returns the destroyed
wrappers for observation. -/
def sectionForgetSegments (s : SectionState) :
    (SectionState × List SegWrap) × Option Err :=
  if s.destroyed then ((s, []), some Err.useAfterDestroy)
  else (({ s with segCache := [] }, s.segCache.map (fun e => segWrapDestroy e.2)), none)

/-- A guarded attribute access on a locator (`Segment.x`, segment.py
35-41): `check_destroyed`, then read. -/
def segGetX (g : SegWrap) : Except Err Rat :=
  if g.destroyed then .error Err.useAfterDestroy else .ok g.xpos

/-! ## NetCon target protocol and the weight cache (netcon.py) -/

/-- What a candidate NetCon target looks like to the validation code: the
class it is an instance of, its attachment state and the
`netcon_target` capability flag of its mechanism type. -/
inductive NCTarget where
  | null
  | pointProcess (attached : Bool) (netconTarget : Bool)
  | artificialCell (netconTarget : Bool)
  | otherObject
  deriving DecidableEq, Repr

/-- The target validation that `NetCon.__init__` (netcon.py 50-64) and the
`target` setter (netcon.py 92-98) both perform: `_check_args` admits
`PointProcess`, `ArtificialCell` or `None` (a `TypeError` otherwise), and
an unattached `PointProcess` is rejected.  The `netcon_target` capability
flag of the mechanism type is never consulted. -/
def netconCheckTarget (t : NCTarget) : Option Err :=
  match t with
  | .otherObject => some Err.typeError
  | .pointProcess attached _ => if !attached then some Err.typeError else none
  | _ => none

/-- A NetCon wrapper: its current target and `self._weight` — the cached
`NetConWeight` object, represented by its cached length `_len`; `none`
after the target setter has discarded it. -/
structure NCState where
  target : NCTarget
  weightObj : Option Nat
  deriving DecidableEq, Repr

/-- Model of `NetCon.__init__` (netcon.py 50-84) restricted to the target
protocol: validate the target, build the kernel NetCon, then create the
`NetConWeight`, whose `_update_count` caches `wcnt()`.  `wcnt` is the
kernel-reported weight count as a function of the current target. -/
def netconNew (wcnt : NCTarget → Nat) (t : NCTarget) : Except Err NCState :=
  match netconCheckTarget t with
  | some e => .error e
  | none => .ok { target := t, weightObj := some (wcnt t) }

/-- Model of the `NetCon.target` setter (netcon.py 92-108): validate,
switch the kernel-side target, then — only when a cached weight object
still exists — push the new kernel count into it and discard it
(`self._weight = None`).  The middle component is the count pushed into the
discarded weight object, if any. -/
def netconSetTarget (wcnt : NCTarget → Nat) (nc : NCState) (t : NCTarget) :
    (NCState × Option Nat) × Option Err :=
  match netconCheckTarget t with
  | some e => ((nc, none), some e)
  | none =>
    match nc.weightObj with
    | some _ => (({ target := t, weightObj := none }, some (wcnt t)), none)
    | none => (({ target := t, weightObj := none }, none), none)

/-- The `NetCon.weight` property (netcon.py 124-126): it returns
`self._weight` as it is, with no recreation on access. -/
def netconWeightAccess (nc : NCState) : Option Nat := nc.weightObj

/-! ## Mechanism variable-name mangling (mechanism.py) -/

/-- Python's `str.endswith`, on code points. -/
def strEndsWith (s sfx : String) : Bool := sfx.data.isSuffixOf s.data

/-- Python's negative slice `s[:-n]`: drop the last `n` code points. -/
def strDropRight (s : String) (n : Nat) : String :=
  String.mk (s.data.take (s.data.length - n))

/-- Python's `attr.rstrip` for the underscore character. -/
def strRstripUnderscore (s : String) : String :=
  String.mk ((s.data.reverse.dropWhile (fun ch => ch = '_')).reverse)

/-- Python's keyword list (`keyword.iskeyword`). -/
def pythonKeywords : List String :=
  ["False", "None", "True", "and", "as", "assert", "async", "await",
   "break", "class", "continue", "def", "del", "elif", "else", "except",
   "finally", "for", "from", "global", "if", "import", "in", "is",
   "lambda", "nonlocal", "not", "or", "pass", "raise", "return", "try",
   "while", "with", "yield"]

/-- The attribute-name generation of `Mechanism.__init__` (mechanism.py
29-41) for one kernel-side variable name of mechanism type `mechName`:
strip a trailing `_mechName` suffix, translate `del` to `delay` (the
IClamp special case), and append an underscore to Python keywords. -/
def mangleVarName (mechName vname : String) : String :=
  let sfx := "_" ++ mechName
  let v1 := if strEndsWith vname sfx then strDropRight vname sfx.length else vname
  let v2 := if v1 = "del" then "delay" else v1
  if pythonKeywords.contains v2 then v2 ++ "_" else v2

/-- The demangling every accessor applies to a generated attribute name
(mechanism.py 65, 91, 100): `attr.rstrip` of underscores. -/
def demangleAttrName (a : String) : String := strRstripUnderscore a

/-! ## Concrete states used by the closed theorems -/

/-- An empty, clean kernel. -/
def cleanKernel : Kernel := { nSections := 0, instCounts := [], mechTypes := [] }

/-- A kernel with one leftover section: `_check_clean` must reject it. -/
def dirtySectionKernel : Kernel :=
  { nSections := 1, instCounts := [], mechTypes := [] }

/-- A process state with no active context and a dirty kernel. -/
def dirtyIdleProc : Proc :=
  { active := none, ctxs := [], kernel := dirtySectionKernel }

/-- A process state in which context 0 is active with one registered member. -/
def busyProc : Proc :=
  { active := some 0
    ctxs := [(0, { freshCtx true with members := [⟨7, false, false⟩] })]
    kernel := cleanKernel }

/-- A keep-vectors context holding one live Vector member and one live
plain member. -/
def mixedCtx : CtxState :=
  { freshCtx true with members := [⟨3, true, false⟩, ⟨5, false, false⟩] }

/-- A context that has been initialized, with its `tstop` attribute set. -/
def initializedCtx : CtxState :=
  { freshCtx true with finitialized := true, tstopAttr := some 10 }

/-- Kernel globals matching the defaults. -/
def kg0 : KernelGlobals := { dt := 1/40, celsius := 25, t := 0 }

/-- A single override: `dt = 2`. -/
def dtOverride : Overrides := { noOverrides with dt := some 2 }

/-- The stale locator of the C4 scenario: cached at position 0.5, alive. -/
def staleSeg : SegWrap := { xpos := 1/2, destroyed := false }

/-- A live section with one materialized locator in its cache. -/
def sec0 : SectionState :=
  { destroyed := false, kernelNseg := 1, segCache := [(1/2, staleSeg)] }

/-- A concrete live point-process world: alive, registered, three kernel
instances of its type. -/
def ppw3 : PPWorld := { destroyed := false, registered := true, liveCount := 3 }

/-- An uninitialized context whose `tstop` attribute has been assigned. -/
def tstopSetCtx : CtxState := { freshCtx true with tstopAttr := some 10 }

/-- A constant kernel weight count. -/
def wcnt1 : NCTarget → Nat := fun _ => 1

end Pynrn

namespace Pynrn

/-! ## Theorems -/

/-- Claim C1: at most one `Context` is active process-wide.  Whenever some
context is active, a second construction attempt raises the
concurrent-context error and returns the process state entirely unchanged
— the first context is still the active one and every context's registered
members and settings are untouched. -/
theorem context_second_construction_rejected_state_unchanged
    (p : Proc) (c : Nat) (kv : Bool) (n : Nat) (h : p.active = some c) :
    contextNew p kv n = (p, some Err.concurrentContext) ∧
    (contextNew p kv n).1.active = some c ∧
    (contextNew p kv n).1.ctxs = p.ctxs := by
  have hs : p.active.isSome = true := by rw [h]; rfl
  refine ⟨?_, ?_, ?_⟩ <;> simp [contextNew, hs, h]

/-- Witness for C1: a concrete busy process (context 0 active, one member)
rejects a second construction and is left unchanged. -/
theorem context_second_construction_rejected_witness :
    contextNew busyProc true 1 = (busyProc, some Err.concurrentContext) ∧
    (contextNew busyProc true 1).1.active = some 0 ∧
    (contextNew busyProc true 1).1.ctxs = busyProc.ctxs :=
  context_second_construction_rejected_state_unchanged busyProc 0 true 1 rfl

/-- Claim C2, counterexample: the constructor is *not* atomic with respect
to the active pointer.  Starting from a state with no active context and a
dirty kernel (one leftover section), construction fails in the pre-flight
clean-state check, yet afterwards a context *is* left active — the
newly-constructed one. -/
theorem context_failed_construction_leaves_context_active :
    (contextNew dirtyIdleProc true 0).2 = some Err.dirtyKernel ∧
    (contextNew dirtyIdleProc true 0).1.active = some 0 ∧
    (contextNew dirtyIdleProc true 0).1.active ≠ none := by
  refine ⟨rfl, rfl, ?_⟩; decide

/-- Claim C2, amended: given no context was active before the attempt, the
constructor always activates the newly-built context first and only then
runs the pre-flight check — it either fully succeeds (clean kernel), or
fails with the new context left as the active context.  Only failures
raised before activation (the concurrent-context check) leave the state
unchanged. -/
theorem context_construction_activates_before_preflight
    (p : Proc) (kv : Bool) (n : Nat) (h : p.active = none) :
    (contextNew p kv n).1.active = some n ∧
    ((contextNew p kv n).2 = none ↔ checkCleanRemaining p.kernel = []) := by
  have hs : p.active.isSome = false := by rw [h]; rfl
  constructor
  · simp [contextNew, hs]
  · simp only [contextNew, hs, Bool.false_eq_true, if_false, checkClean]
    by_cases hc : checkCleanRemaining p.kernel = [] <;> simp [hc]

/-- Witness for the amended C2: on a concrete idle process with a dirty
kernel, construction activates context 0 and the failure is exactly the
dirty-kernel condition. -/
theorem context_construction_activates_before_preflight_witness :
    (contextNew dirtyIdleProc true 0).1.active = some 0 ∧
    ((contextNew dirtyIdleProc true 0).2 = none ↔
      checkCleanRemaining dirtyIdleProc.kernel = []) :=
  context_construction_activates_before_preflight dirtyIdleProc true 0 rfl

end Pynrn

namespace Pynrn

/-- Claim C10, counterexample: finishing a context that is not the active
one does not destroy *all* of its registered members — a `Vector` member
of a keep-vectors context survives teardown, still registered and alive
(the pointer, pointing at another context, is indeed unchanged). -/
theorem finish_keeps_vector_member_alive :
    (contextFinish (some 1) 0 mixedCtx).2.1.members = [⟨3, true, false⟩] ∧
    (contextFinish (some 1) 0 mixedCtx).1 = some 1 := by
  refine ⟨?_, ?_⟩ <;> decide

/-- Claim C10, amended: `finish` destroys every registered member of the
finishing context except `Vector` members of a keep-vectors context (which
stay registered and alive), and it clears the process-wide active pointer
exactly when the finishing context is the currently active one — a
non-active context's `finish` leaves the pointer unchanged. -/
theorem finish_teardown_and_pointer (active : Option Nat) (cid : Nat) (c : CtxState) :
    (contextFinish active cid c).1 = (if active = some cid then none else active) ∧
    (∀ o ∈ (contextFinish active cid c).2.2, o.destroyed = true) ∧
    (∀ o ∈ c.members, keptByTeardown c o = false →
      objDestroy o ∈ (contextFinish active cid c).2.2) ∧
    (contextFinish active cid c).2.1.members =
      c.members.filter (fun o => keptByTeardown c o) := by
  have hd : ∀ a : Obj, (objDestroy a).destroyed = true := by
    intro a
    unfold objDestroy
    split
    · assumption
    · rfl
  refine ⟨rfl, ?_, ?_, rfl⟩
  · intro o ho
    simp only [contextFinish, contextTeardown, List.mem_map] at ho
    obtain ⟨a, _, rfl⟩ := ho
    exact hd a
  · intro o ho hk
    simp only [contextFinish, contextTeardown]
    exact List.mem_map_of_mem objDestroy (List.mem_filter.mpr ⟨ho, by simp [hk]⟩)

/-- Witness for the amended C10: in the concrete mixed context that
context 1 owns the pointer for, the plain member is destroyed by context
0's finish while the pointer stays at context 1. -/
theorem finish_teardown_and_pointer_witness :
    (contextFinish (some 1) 0 mixedCtx).1 = some 1 ∧
    objDestroy ⟨5, false, false⟩ ∈ (contextFinish (some 1) 0 mixedCtx).2.2 := by
  have h := finish_teardown_and_pointer (some 1) 0 mixedCtx
  exact ⟨by rw [h.1]; rfl, h.2.2.1 ⟨5, false, false⟩ (by decide) (by decide)⟩

/-- Claim C3: destroying a managed handle a second time after a successful
destroy returns without effect and without raising; a point-process
destroy observes the kernel live count for its type strictly decrease
exactly once across any number of destroy calls — the count assertion
passes on the first call and every later call returns early, unchanged. -/
theorem destroy_idempotent_and_pp_count_decreases_once
    (o : NObj) (s : PPWorld) (k : Nat)
    (hs : s.destroyed = false) (hc : 1 ≤ s.liveCount) (hk : 1 ≤ k) :
    nobjDestroy (nobjDestroy o) = nobjDestroy o ∧
    ppDestroy s =
      ({ destroyed := true, registered := false, liveCount := s.liveCount - 1 }, none) ∧
    (ppDestroyStep s).liveCount < s.liveCount ∧
    ppDestroy (ppDestroyStep s) = (ppDestroyStep s, none) ∧
    ppDestroyStep^[k] s = ppDestroyStep s := by
  have h2 : ppDestroy s =
      ({ destroyed := true, registered := false, liveCount := s.liveCount - 1 }, none) := by
    simp [ppDestroy, hs]
  have hstep : ppDestroyStep s =
      { destroyed := true, registered := false, liveCount := s.liveCount - 1 } := by
    simp [ppDestroyStep, h2]
  have hdead : (ppDestroyStep s).destroyed = true := by rw [hstep]
  have h4 : ppDestroy (ppDestroyStep s) = (ppDestroyStep s, none) := by
    simp [ppDestroy, hdead]
  have hfix : ppDestroyStep (ppDestroyStep s) = ppDestroyStep s := by
    have hx := congrArg Prod.fst h4
    exact hx
  refine ⟨?_, h2, ?_, h4, ?_⟩
  · cases h : o.destroyed <;> simp [nobjDestroy, h]
  · rw [hstep]
    exact Nat.sub_lt hc Nat.one_pos
  · obtain ⟨j, rfl⟩ : ∃ j, k = j + 1 := ⟨k - 1, (Nat.succ_pred_eq_of_pos hk).symm⟩
    rw [Function.iterate_succ_apply, Function.iterate_fixed hfix]

/-- Witness for C3: a live point process with three kernel instances,
destroyed twice. -/
theorem destroy_idempotent_and_pp_count_decreases_once_witness :
    nobjDestroy (nobjDestroy ⟨false, true⟩) = nobjDestroy ⟨false, true⟩ ∧
    ppDestroy ppw3 =
      ({ destroyed := true, registered := false, liveCount := ppw3.liveCount - 1 }, none) ∧
    (ppDestroyStep ppw3).liveCount < ppw3.liveCount ∧
    ppDestroy (ppDestroyStep ppw3) = (ppDestroyStep ppw3, none) ∧
    ppDestroyStep^[2] ppw3 = ppDestroyStep ppw3 :=
  destroy_idempotent_and_pp_count_decreases_once ⟨false, true⟩ ppw3 2 rfl
    (by decide) (by decide)

/-- Claim C4 is violated by the source: the `nseg` setter changes the
kernel's segmentation but destroys nothing — the previously materialized
locator stays cached and alive, and guarded attribute access on it still
succeeds instead of raising the use-after-destroy error.  The invalidation
routine `_forget_segments` exists and would have destroyed it, but its
call inside the setter is commented out. -/
theorem nseg_set_leaves_stale_locator_usable :
    sectionSetNseg sec0 2 =
      ({ destroyed := false, kernelNseg := 2, segCache := [(1/2, staleSeg)] }, none) ∧
    segGetX staleSeg = Except.ok (1/2) ∧
    (sectionForgetSegments sec0).1.1.segCache = [] ∧
    (sectionForgetSegments sec0).1.2 = [{ xpos := 1/2, destroyed := true }] :=
  ⟨rfl, rfl, rfl, rfl⟩

/-- Claim C5, counterexample: on an active Context that has already been
initialized, setting the timestep and the temperature both succeed — no
immutability-after-init rejection exists in the setters. -/
theorem dt_celsius_settable_after_initialization :
    initializedCtx.finitialized = true ∧
    ctxSetDt true initializedCtx 2 = ({ initializedCtx with dt := 2 }, none) ∧
    ctxSetCelsius true initializedCtx 37 =
      ({ initializedCtx with celsius := 37 }, none) :=
  ⟨rfl, rfl, rfl⟩

/-- Claim C5, amended: initialization never freezes the timestep or the
temperature.  On an initialized but still active Context both setters
succeed (the timestep additionally requiring a positive value), just as
the stop-time attribute does; the setters reject only when the context is
no longer the active one. -/
theorem param_setters_guard_on_active_not_on_initialized
    (c : CtxState) (v : Rat) (_hfin : c.finitialized = true) (hv : 0 < v) :
    ctxSetDt true c v = ({ c with dt := v }, none) ∧
    ctxSetCelsius true c v = ({ c with celsius := v }, none) ∧
    ctxSetTstop c v = { c with tstopAttr := some v } ∧
    ctxSetDt false c v = (c, some Err.notActive) ∧
    ctxSetCelsius false c v = (c, some Err.notActive) := by
  refine ⟨?_, rfl, rfl, rfl, rfl⟩
  simp [ctxSetDt, not_le.mpr hv]

/-- Witness for the amended C5 at the concrete initialized context. -/
theorem param_setters_guard_witness :
    ctxSetDt true initializedCtx 2 = ({ initializedCtx with dt := 2 }, none) ∧
    ctxSetCelsius true initializedCtx 2 =
      ({ initializedCtx with celsius := 2 }, none) ∧
    ctxSetTstop initializedCtx 2 = { initializedCtx with tstopAttr := some 2 } ∧
    ctxSetDt false initializedCtx 2 = (initializedCtx, some Err.notActive) ∧
    ctxSetCelsius false initializedCtx 2 = (initializedCtx, some Err.notActive) :=
  param_setters_guard_on_active_not_on_initialized initializedCtx 2 rfl (by norm_num)

/-- Claim C6, counterexample: `run` on an already-initialized Context does
not reject parameter overrides — it forwards them to `init` (with `finit`
defaulted to false) and applies them, succeeding. -/
theorem run_applies_override_on_initialized_context :
    initializedCtx.finitialized = true ∧
    (ctxRun true initializedCtx kg0 dtOverride).2 = none ∧
    (ctxRun true initializedCtx kg0 dtOverride).1.1.dt = 2 :=
  ⟨rfl, rfl, rfl⟩

/-- Claim C6, amended: `run` never rejects overrides.  It forwards them
all to `init`, defaulting `finit` to "not yet initialized": on an active
context whose `tstop` attribute has been assigned, `run` with a positive
timestep override succeeds, applies the override, and leaves the context
initialized — whether or not it was initialized before the call. -/
theorem run_forwards_overrides_to_init
    (c : CtxState) (kg : KernelGlobals) (v ts : Rat)
    (hts : c.tstopAttr = some ts) (hv : 0 < v) :
    (ctxRun true c kg { noOverrides with dt := some v }).2 = none ∧
    (ctxRun true c kg { noOverrides with dt := some v }).1.1.dt = v ∧
    (ctxRun true c kg { noOverrides with dt := some v }).1.1.finitialized = true := by
  have hdec : decide (v ≤ 0) = false := decide_eq_false (not_le.mpr hv)
  cases hf : c.finitialized <;>
    simp [ctxRun, ctxInit, ctxInitApply, runAdvanceLoop, noOverrides, hts, hf, hdec]

/-- Witness for the amended C6: a fresh context with its stop-time
attribute assigned, run with a timestep override of one half. -/
theorem run_forwards_overrides_witness :
    (ctxRun true tstopSetCtx kg0 { noOverrides with dt := some 2 }).2 = none ∧
    (ctxRun true tstopSetCtx kg0 { noOverrides with dt := some 2 }).1.1.dt = 2 ∧
    (ctxRun true tstopSetCtx kg0
      { noOverrides with dt := some 2 }).1.1.finitialized = true :=
  run_forwards_overrides_to_init tstopSetCtx kg0 2 10 rfl (by norm_num)

/-- Claim C7, counterexample: an attached point process whose mechanism
type cannot receive events (`netcon_target = false`) passes the target
validation of both the constructor and the setter — the event-receiving
capability is never checked, so the operation does not fail. -/
theorem netcon_accepts_attached_non_event_target :
    netconCheckTarget (NCTarget.pointProcess true false) = none ∧
    netconNew wcnt1 (NCTarget.pointProcess true false) =
      Except.ok { target := NCTarget.pointProcess true false, weightObj := some 1 } ∧
    (netconSetTarget wcnt1 { target := NCTarget.null, weightObj := some 1 }
        (NCTarget.pointProcess true false)).2 = none :=
  ⟨rfl, rfl, rfl⟩

/-- Claim C7, amended: the constructor and target setter require a
non-null target to be an instance of the point-process or artificial-cell
classes (TypeError otherwise), and a point-process target to be attached;
the event-receiving capability flag is not consulted. -/
theorem netcon_target_validation_characterized (t : NCTarget) :
    netconCheckTarget t = none ↔
      (t = NCTarget.null ∨ (∃ b, t = NCTarget.artificialCell b) ∨
        ∃ b, t = NCTarget.pointProcess true b) := by
  cases t with
  | null => simp [netconCheckTarget]
  | pointProcess attached b => cases attached <;> simp [netconCheckTarget]
  | artificialCell b => simp [netconCheckTarget]
  | otherObject => simp [netconCheckTarget]

/-- Witness for the amended C7: an artificial cell without the
event-target capability flag is accepted. -/
theorem netcon_target_validation_witness :
    netconCheckTarget (NCTarget.artificialCell false) = none :=
  (netcon_target_validation_characterized (NCTarget.artificialCell false)).mpr
    (Or.inr (Or.inl ⟨false, rfl⟩))

/-- Claim C8 is violated by the source: after the first retarget the
NetCon's weight accessor yields no weight object at all.  The setter
pushes the new kernel count into the old weight object once and then
discards it (`self._weight = None`); the weight property never recreates
it, and a second retarget updates nothing. -/
theorem retarget_discards_weight_object :
    netconNew wcnt1 NCTarget.null =
      Except.ok { target := NCTarget.null, weightObj := some 1 } ∧
    netconSetTarget wcnt1 { target := NCTarget.null, weightObj := some 1 }
        (NCTarget.artificialCell true) =
      (({ target := NCTarget.artificialCell true, weightObj := none }, some 1), none) ∧
    netconWeightAccess { target := NCTarget.artificialCell true, weightObj := none } =
      none ∧
    netconSetTarget wcnt1 { target := NCTarget.artificialCell true, weightObj := none }
        NCTarget.null =
      (({ target := NCTarget.null, weightObj := none }, none), none) :=
  ⟨rfl, rfl, rfl, rfl⟩

/-- Claim C9 is violated by the source: the IClamp kernel variable named
`del` is mangled to the attribute `delay`, and demangling (rstrip of
underscores) followed by remangling yields `delay` again, not `del` — the
name-to-attribute-to-name round trip is broken.  The repository's own
tests expect the attribute `del_` instead, which does demangle losslessly
back to `del`, as the plain keyword path (for example `lambda`) does. -/
theorem mangle_del_roundtrip_broken :
    mangleVarName "IClamp" "del" = "delay" ∧
    demangleAttrName (mangleVarName "IClamp" "del") = "delay" ∧
    mangleVarName "IClamp" (demangleAttrName (mangleVarName "IClamp" "del")) = "delay" ∧
    ("delay" : String) ≠ "del" ∧
    demangleAttrName "del_" = "del" ∧
    mangleVarName "IClamp" "lambda" = "lambda_" ∧
    demangleAttrName "lambda_" = "lambda" := by
  refine ⟨?_, ?_, ?_, ?_, ?_, ?_, ?_⟩ <;> decide

end Pynrn
